import Mathlib

/-!
Verification development for the poketext repository (a text-mode client for a
line-based chat protocol).  The definitions below are a shallow embedding of
the Python sources `poketext.py` and `prefs.py`: Python strings are Lean
`String`s, Python `None`-able fields are `Option`s, Python dicts are
association lists (or functions for the JSON preference object), and code that
can raise an exception returns `Except`.  Python truthiness of an optional
string field (`if message.senderName:`) is modelled by `truthyOptStr`
(present and non-empty); timestamps are modelled as natural numbers within the
range supported by the datetime collaborator.
-/

deriving instance DecidableEq for Except

namespace Poketext

/-! ### Python string primitives, modelled character-by-character -/

/-- Python whitespace characters handled by `str.strip()` (ASCII subset). -/
def isPySpace (c : Char) : Bool :=
  c = ' ' || c = '\t' || c = '\n' || c = '\r' || c = '\x0b' || c = '\x0c'

/-- Model of Python `str.strip()`: drop whitespace from both ends. -/
def pyStrip (s : String) : String :=
  String.mk (((s.data.dropWhile isPySpace).reverse.dropWhile isPySpace).reverse)

/-- Model of Python `str.lower()` restricted to ASCII letters. -/
def lowerChar (c : Char) : Char :=
  if 'A' ≤ c && c ≤ 'Z' then Char.ofNat (c.toNat + 32) else c

/-- Model of Python `str.lower()` on a whole string (ASCII letters). -/
def lowerStr (s : String) : String :=
  String.mk (s.data.map lowerChar)

/-- Python slice `s[:n]` (by code points). -/
def cTake (s : String) (n : Nat) : String :=
  String.mk (s.data.take n)

/-- Python slice `s[n:]` (by code points). -/
def cDrop (s : String) (n : Nat) : String :=
  String.mk (s.data.drop n)

/-- Substring test, modelling Python `pat in s` for a non-empty pattern. -/
def hasSub : List Char → List Char → Bool
  | [], pat => pat.isPrefixOf ([] : List Char)
  | c :: rest, pat => pat.isPrefixOf (c :: rest) || hasSub rest pat

/-- Model of Python `s.in` on strings, wrapped for `String`. -/
def pyContains (s pat : String) : Bool :=
  hasSub s.data pat.data

/-- Fuel-driven full split on a (non-empty) separator string, modelling
Python `s.split(sep)` with no maxsplit.  The fuel is the string length, which
always suffices because every step consumes at least one character. -/
def splitFullAux (sep : List Char) : Nat → List Char → List Char → List (List Char)
  | _, acc, [] => [acc.reverse]
  | 0, acc, rest => [acc.reverse ++ rest]
  | fuel + 1, acc, c :: rest =>
    if sep ≠ [] && sep.isPrefixOf (c :: rest) then
      acc.reverse :: splitFullAux sep fuel [] (rest.drop (sep.length - 1))
    else
      splitFullAux sep fuel (c :: acc) rest

/-- Python `s.split(sep)` for a non-empty string separator. -/
def pySplitOn (s sep : String) : List String :=
  (splitFullAux sep.data s.data.length [] s.data).map String.mk

/-- Fuel-driven split on a single character with a maxsplit bound, modelling
Python `s.split(sep, maxsplit)`. -/
def splitChMaxAux (sep : Char) : Nat → Nat → List Char → List Char → List (List Char)
  | _, _, acc, [] => [acc.reverse]
  | 0, _, acc, rest => [acc.reverse ++ rest]
  | _ + 1, 0, acc, rest => [acc.reverse ++ rest]
  | fuel + 1, n + 1, acc, c :: rest =>
    if c = sep then acc.reverse :: splitChMaxAux sep fuel n [] rest
    else splitChMaxAux sep fuel (n + 1) (c :: acc) rest

/-- Python `s.split(sep, maxsplit)` for a single-character separator. -/
def pySplitCh (s : String) (sep : Char) (maxsplit : Nat) : List String :=
  (splitChMaxAux sep s.data.length maxsplit [] s.data).map String.mk

/-- One pass of `re.sub`-style scanning: at each position, if the matcher
accepts a prefix of the remaining input it returns the number of characters
matched (always at least one here); the match is replaced by `repl` and the
scan resumes after it.  Fuel is the input length. -/
def subFuel (m : List Char → Option Nat) (repl : List Char) : Nat → List Char → List Char
  | _, [] => []
  | 0, s => s
  | fuel + 1, c :: rest =>
    match m (c :: rest) with
    | some k => repl ++ subFuel m repl fuel (rest.drop (k - 1))
    | none => c :: subFuel m repl fuel rest

/-- Model of Python `str.replace(pat, rep)` for a non-empty pattern:
all non-overlapping occurrences, left to right. -/
def pyReplace (s pat rep : String) : String :=
  String.mk (subFuel
    (fun l => if pat.data ≠ [] && pat.data.isPrefixOf l then some pat.data.length else none)
    rep.data s.data.length s.data)

/-- Index of the first occurrence of the character `gt` in a list. -/
def findCharIdx (gt : Char) : List Char → Option Nat
  | [] => none
  | c :: rest => if c = gt then some 0 else (findCharIdx gt rest).map (· + 1)

/-! ### The embedded-markup formatter (`formatHTML` in `poketext.py`)

Each regular expression of the source is compiled by hand into a matcher that
reports how many characters the regex matches at the current position. -/

/-- Matcher for the first substitution regex (self-closing psicon tags):
after the literal tag opener, the regex consumes non-gt characters greedily
and then requires a slash immediately before the first closing bracket. -/
def matchPsicon (s : List Char) : Option Nat :=
  if ("<psicon".data).isPrefixOf s then
    let t := s.drop 7
    match findCharIdx '>' t with
    | some j => if 1 ≤ j && t.getD (j - 1) ' ' = '/' then some (7 + j + 1) else none
    | none => none
  else none

/-- Matcher for the second substitution regex: a raw, html or uhtml marker
delimited by pipes. -/
def matchRawMarker (s : List Char) : Option Nat :=
  if ("|raw|".data).isPrefixOf s then some 5
  else if ("|html|".data).isPrefixOf s then some 6
  else if ("|uhtml|".data).isPrefixOf s then some 7
  else none

/-- Matcher for the third substitution regex: an opening img or font tag (up
to the first closing bracket) or a closing font or img tag. -/
def matchImgFont (s : List Char) : Option Nat :=
  let openTag : Option Nat :=
    if ("<img".data).isPrefixOf s then
      match findCharIdx '>' (s.drop 4) with
      | some j => some (4 + j + 1)
      | none => none
    else if ("<font".data).isPrefixOf s then
      match findCharIdx '>' (s.drop 5) with
      | some j => some (5 + j + 1)
      | none => none
    else none
  match openTag with
  | some k => some k
  | none =>
    if ("</font>".data).isPrefixOf s then some 7
    else if ("</img>".data).isPrefixOf s then some 6
    else none

/-- Matcher for the fourth substitution regex: nbsp and ThickSpace entities. -/
def matchEntity (s : List Char) : Option Nat :=
  if ("&nbsp;".data).isPrefixOf s then some 6
  else if ("&ThickSpace;".data).isPrefixOf s then some 12
  else none

/-- Run one substitution pass over a string. -/
def runSub (m : List Char → Option Nat) (repl : List Char) (s : List Char) : List Char :=
  subFuel m repl s.length s

/-- `formatHTML` from `poketext.py`: the four `re.sub` passes applied in the
dictionary order of the source (psicon removal, pipe markers to newline, img and
font tag stripping, whitespace entities to a space). -/
def formatHTML (s : String) : String :=
  let a := runSub matchPsicon [] s.data
  let b := runSub matchRawMarker ['\n'] a
  let c := runSub matchImgFont [] b
  let d := runSub matchEntity [' '] c
  String.mk d

/-! ### The event data model (`psclient.Message` as consumed by the renderer) -/

/-- A room object; the renderer only reads its identifier. -/
structure Room where
  id : String
deriving DecidableEq, Repr

/-- A user object; the renderer only reads its identifier. -/
structure UserRef where
  id : String
deriving DecidableEq, Repr

/-- The fields of a `psclient.Message` that `handleMessage` reads.  `thisId`
is `message.connection.this.id`, the identifier of the local user.  `time` is the
timestamp field: `none` models an absent or empty (falsy) value. -/
structure Message where
  type : String
  senderName : Option String
  sender : Option UserRef
  body : Option String
  room : Option Room
  time : Option Nat
  raw : String
  thisId : String
deriving DecidableEq, Repr

/-- The preference values the renderer reads.  `blacklistedTypes` is the
unparsed result of the store lookup (`none` when the key was never set);
`showjoins` is the truthiness of the `showjoins` preference. -/
structure RenderPrefs where
  blacklistedTypes : Option (List String)
  showjoins : Bool
deriving DecidableEq, Repr

/-- One display unit handed to the terminal printer: either a plain string or
a string wrapped in the styled-markup object produced by `formatHTML`. -/
inductive Output where
  | text (s : String)
  | html (s : String)
deriving DecidableEq, Repr

/-- The exceptions the renderer can raise: the membership test on an unset
blacklist preference, and out-of-range indexing into a pipe-split raw line. -/
inductive RenderError where
  | typeError
  | indexError
deriving DecidableEq, Repr

/-- Truthiness of an optional string field: present and non-empty. -/
def truthyOptStr : Option String → Bool
  | none => false
  | some s => s != ""

/-- Extract an optional string known to be present (defaulting to empty). -/
def getStr : Option String → String
  | some s => s
  | none => ""

/-- Python f-string interpolation of a possibly-`None` value. -/
def pyShow : Option String → String
  | some s => s
  | none => "None"

/-- The room identifier of an optional room (defaulting to empty). -/
def roomIdOf : Option Room → String
  | some r => r.id
  | none => ""

/-- Left-pad a digit pair, as rendered by the datetime collaborator. -/
def pad2 (n : Nat) : String :=
  if n < 10 then "0" ++ toString n else toString n

/-- Time-of-day string of a UTC seconds-since-epoch timestamp, as produced by
interpreting the timestamp in UTC and printing its time component. -/
def timeOfDay (t : Nat) : String :=
  let s := t % 86400
  pad2 (s / 3600) ++ ":" ++ pad2 (s % 3600 / 60) ++ ":" ++ pad2 (s % 60)

/-- The bracketed time segment of a chat line (empty when absent). -/
def chatTimeStr : Option Nat → String
  | some t => "[" ++ timeOfDay t ++ "] "
  | none => ""

/-- The guard of the chat branch of `handleMessage`: kind is chat and the
sender name, body and room fields are all truthy. -/
def chatCond (m : Message) : Bool :=
  m.type == "chat" && truthyOptStr m.senderName && truthyOptStr m.body && m.room.isSome

/-- The chat line template of `handleMessage`. -/
def chatLine (m : Message) : String :=
  "(" ++ roomIdOf m.room ++ ") " ++ chatTimeStr m.time ++
    pyStrip (getStr m.senderName) ++ ": " ++ getStr m.body

/-- The display units emitted by the chat branch of `handleMessage`. -/
def chatOutputs (m : Message) : List Output :=
  let b := getStr m.body
  if pyContains b "|raw|" then
    let split := pySplitOn b "|raw|"
    Output.text (pyReplace (chatLine m) b (split.headD "")) ::
      split.tail.map (fun item => Output.html (formatHTML item))
  else
    [Output.text (chatLine m)]

/-- The number of fields expected when splitting a raw protocol line. -/
def rawIndex (m : Message) : Nat :=
  if m.type == "uhtml" then 3 else 2

/-- The pm branch of `handleMessage`: overwrite the running `formatted`
value with the PM-from line when the event is a pm with a truthy sender name
whose sender object is present and is not the local user. -/
def pmFormatted (m : Message) (prev : Output) : Output :=
  if m.type == "pm" && truthyOptStr m.senderName then
    match m.sender with
    | some u =>
      if u.id != m.thisId then
        .text ("(PM from " ++ pyStrip (getStr m.senderName) ++ ") " ++ pyShow m.body)
      else prev
    | none => prev
  else prev

/-- The join/leave branch of `handleMessage`: overwrite the running
`formatted` value when the event is a join or leave with room and truthy
sender name and the showjoins preference is truthy. -/
def joinFormatted (m : Message) (p : RenderPrefs) (prev : Output) : Output :=
  if (m.type == "join" || m.type == "leave") && m.room.isSome &&
      truthyOptStr m.senderName then
    if p.showjoins then
      .text (pyStrip (getStr m.senderName) ++
        (if m.type == "join" then " joined " else " left ") ++ roomIdOf m.room)
    else prev
  else prev

/-- The guard of the raw/html/uhtml branch of `handleMessage`. -/
def rawGuard (m : Message) : Bool :=
  (m.type == "raw" || m.type == "html" || m.type == "uhtml") && m.raw != ""

/-- The raw/html/uhtml branch of `handleMessage`: split the raw line on
pipes with the maxsplit bound, index the payload (raising when out of range),
prepend the uhtml display name, and run the embedded-markup formatter. -/
def rawBranch (m : Message) : Except RenderError (List Output) :=
  match (pySplitCh m.raw '|' (rawIndex m)).get? (rawIndex m) with
  | some payload =>
    .ok [Output.html (formatHTML
      ((if m.type == "uhtml" then
          (pySplitCh m.raw '|' (rawIndex m)).getD (rawIndex m - 1) "" ++ ": "
        else "") ++ payload))]
  | none => .error .indexError

/-- `PSInterface.handleMessage` from `poketext.py`, returning the list of
display units printed (or the exception raised).  The branch structure
mirrors the source: an early return for blacklisted kinds and for chat; a
`formatted` variable initialised to the raw fallback and conditionally
overwritten by the pm and join/leave branches (`pmFormatted`,
`joinFormatted`); a raw/html/uhtml branch that splits the raw line on pipes
and can index out of range (`rawBranch`). -/
def handleMessage (m : Message) (p : RenderPrefs) : Except RenderError (List Output) :=
  match p.blacklistedTypes with
  | none => .error .typeError
  | some bl =>
    if m.type ∈ bl then .ok []
    else if chatCond m then .ok (chatOutputs m)
    else if rawGuard m then rawBranch m
    else .ok [joinFormatted m p (pmFormatted m (.text m.raw))]

/-! ### Dispatch-loop handling of one popped input line (`mainLoop`) -/

/-- A single apostrophe, as used in the unknown-command message. -/
def sq : String := String.mk ['\'']

/-- What `mainLoop` does with one popped input line.  `skip` models the
`continue` taken for a falsy line: nothing is invoked, printed or sent. -/
inductive DispatchAction where
  | skip
  | invoke (name arg : String)
  | unknown (msg : String)
  | send (payload : String)
deriving DecidableEq, Repr

/-- The first space-delimited token of a stripped command line. -/
def firstTok (s : String) : String :=
  (pySplitCh s ' ' 1).headD ""

/-- The remainder after the first space of a stripped command line, empty
when there is no space. -/
def restTok (s : String) : String :=
  (pySplitCh s ' ' 1).getD 1 ""

/-- The per-line dispatch step of `mainLoop` in `poketext.py`.  A falsy
(empty) popped line is skipped by the guard before the prefix check (the
`continue` taken when the command is falsy).  Otherwise, if the leading
slice of the line equals the command character, the prefix is stripped, the line
is split at the first space, and the lowercased first token is looked up in
the registry (invoking it with the remainder, or printing the unknown-command
message); otherwise the whole line is sent as `room`, a pipe, and the line
(via `PSInterface.send`). -/
def dispatchLine (commandChar room : String) (registry : List String) (line : String) :
    DispatchAction :=
  if line = "" then .skip
  else if cTake line commandChar.length = commandChar then
    let rest := cDrop line commandChar.length
    let tok := lowerStr (firstTok rest)
    if tok ∈ registry then .invoke tok (restTok rest)
    else .unknown ("Unknown command " ++ sq ++ commandChar ++ firstTok rest ++ sq)
  else
    .send (room ++ "|" ++ line)

/-! ### The plugin registry (`loadPlugin` / `unloadPlugin`) -/

/-- The distinct failures of the plugin resolution collaborator
(`importlib.import_module(plugin).commands`): a missing module, a module
without a usable command mapping, and any other exception. -/
inductive ResolveError where
  | moduleNotFound
  | attributeError
  | other
deriving DecidableEq, Repr

/-- Result of `PSInterface.loadPlugin`. -/
inductive LoadResult where
  | mustSpecify
  | alreadyLoaded
  | notFound
  | invalidPlugin
  | otherError
  | loaded
deriving DecidableEq, Repr

/-- Result of `PSInterface.unloadPlugin`. -/
inductive UnloadResult where
  | mustSpecify
  | notLoaded
  | notFound
  | otherError
  | unloaded
deriving DecidableEq, Repr

/-- The interface state touched by the plugin operations: the command dict
(an association list with unique keys kept in insertion order), the loaded
plugin identifiers, and the persisted `plugins` preference (`none` when the
key was never set). -/
structure IState (H : Type) where
  commands : List (String × H)
  loadedPlugins : List String
  pluginsPref : Option (List String)
deriving DecidableEq, Repr

/-- Python dict insert-or-replace (`d[k] = v` semantics inside `update`). -/
def dictUpsert {H : Type} (d : List (String × H)) (k : String) (v : H) : List (String × H) :=
  if d.any (fun kv => kv.1 == k) then
    d.map (fun kv => if kv.1 == k then (k, v) else kv)
  else d ++ [(k, v)]

/-- Python `dict.update`: merge every pair, last write wins. -/
def dictUpdate {H : Type} (d upd : List (String × H)) : List (String × H) :=
  upd.foldl (fun acc kv => dictUpsert acc kv.1 kv.2) d

/-- Python `del d[k]` guarded by a membership test (deletes if present). -/
def dictDelete {H : Type} : List (String × H) → String → List (String × H)
  | [], _ => []
  | kv :: rest, k => if kv.1 = k then dictDelete rest k else kv :: dictDelete rest k

/-- Membership in the command dict. -/
def dictHas {H : Type} : List (String × H) → String → Bool
  | [], _ => false
  | kv :: rest, k => kv.1 == k || dictHas rest k

/-- The plugin-name normalisation applied on entry to both operations:
lowercase and remove spaces. -/
def pyNorm (plugin : String) : String :=
  String.mk ((lowerStr plugin).data.filter (fun c => c != ' '))

/-- `PSInterface.loadPlugin` from `poketext.py`.  `resolve` models the plugin
resolution collaborator. -/
def loadPlugin {H : Type} (resolve : String → Except ResolveError (List (String × H)))
    (st : IState H) (plugin : String) : IState H × LoadResult :=
  let p := pyNorm plugin
  if p = "" then (st, .mustSpecify)
  else if p ∈ st.loadedPlugins then (st, .alreadyLoaded)
  else
    match resolve p with
    | .error .moduleNotFound => (st, .notFound)
    | .error .attributeError => (st, .invalidPlugin)
    | .error .other => (st, .otherError)
    | .ok cmds =>
      let st1 : IState H :=
        { st with
          commands := dictUpdate st.commands cmds
          loadedPlugins := st.loadedPlugins ++ [p] }
      let settings : List String :=
        match st1.pluginsPref with
        | some l => if l.isEmpty then [] else l
        | none => []
      if p ∈ settings then (st1, .loaded)
      else ({ st1 with pluginsPref := some (settings ++ [p]) }, .loaded)

/-- `PSInterface.unloadPlugin` from `poketext.py`: re-resolve the plugin to
discover the names it contributed, delete each present one from the command
dict, drop the identifier from the loaded set, and update the persisted
plugin list. -/
def unloadPlugin {H : Type} (resolve : String → Except ResolveError (List (String × H)))
    (st : IState H) (plugin : String) : IState H × UnloadResult :=
  let p := pyNorm plugin
  if p = "" then (st, .mustSpecify)
  else if p ∉ st.loadedPlugins then (st, .notLoaded)
  else
    match resolve p with
    | .error .moduleNotFound => (st, .notFound)
    | .error _ => (st, .otherError)
    | .ok cmds =>
      let st1 : IState H :=
        { st with
          commands := cmds.foldl (fun acc kv => dictDelete acc kv.1) st.commands
          loadedPlugins := st.loadedPlugins.erase p }
      let settings : List String := st1.pluginsPref.getD []
      if !settings.isEmpty && settings.contains p then
        ({ st1 with pluginsPref := some (settings.erase p) }, .unloaded)
      else (st1, .unloaded)

/-- The built-in command dict installed by `PSInterface` construction, with
handlers named after the bound methods. -/
def builtinCmds : List (String × String) :=
  [("room", "switchRoomContext"), ("eval", "evalCode"),
   ("loadplugin", "loadPluginMethod"), ("load", "loadPluginMethod"),
   ("unload", "unloadPluginMethod"), ("unloadplugin", "unloadPluginMethod"),
   ("exit", "exitClient"), ("bye", "exitClient"), ("configure", "configureMethod")]

/-- The built-in command names. -/
def builtinNames : List String :=
  builtinCmds.map (fun kv => kv.1)

/-! ### The preference store (`prefs.py`) -/

/-- JSON-representable preference values. -/
inductive PValue where
  | str (s : String)
  | int (n : Int)
  | list (l : List PValue)
  | bool (b : Bool)
  | null

/-- Content of the preferences file: a zero-byte file (as produced by the
`touch` in `_loadJSON`) or a serialised JSON object.  The JSON round-trip of
the json collaborator is faithful for `PValue`s, so the object is stored
structurally. -/
inductive FileContent where
  | empty
  | obj (d : String → Option PValue)

/-- State of the path the preference store reads and writes.  (The path
being a directory is a filesystem condition outside this embedding.) -/
inductive FileState where
  | absent
  | present (c : FileContent)

/-- The exception `json.loads` raises on non-JSON input. -/
inductive PrefsError where
  | decodeError
deriving DecidableEq, Repr

/-- `_loadJSON` from `prefs.py`: touch-and-return-empty when the file is
absent (leaving a zero-byte file behind), decode otherwise — raising on the
zero-byte content the touch itself produces. -/
def loadJSON : FileState → Except PrefsError ((String → Option PValue) × FileState)
  | .absent => .ok (fun _ => none, .present .empty)
  | .present .empty => .error .decodeError
  | .present (.obj d) => .ok (d, .present (.obj d))

/-- `setPref` from `prefs.py`: load, assign, dump. -/
def setPref (k : String) (v : PValue) (st : FileState) : Except PrefsError FileState :=
  match loadJSON st with
  | .error e => .error e
  | .ok (d, _) => .ok (.present (.obj (fun q => if q = k then some v else d q)))

/-- `getPref` from `prefs.py`: load and look the key up (with the touch side
effect on the file state). -/
def getPref (k : String) (st : FileState) : Except PrefsError (Option PValue × FileState) :=
  match loadJSON st with
  | .error e => .error e
  | .ok (d, st1) => .ok (d k, st1)

/-- The set-then-get round trip of the spec, returning the value read back
(`none` when either call raises). -/
def roundTrip (k : String) (v : PValue) (st : FileState) : Option PValue :=
  match setPref k v st with
  | .error _ => none
  | .ok st1 =>
    match getPref k st1 with
    | .error _ => none
    | .ok (r, _) => r

/-! ### Concrete instances used by witnesses and counterexamples -/

/-- Render preferences with an empty blacklist and showjoins on. -/
def pEmptyBl : RenderPrefs := { blacklistedTypes := some [], showjoins := true }

/-- Render preferences with an empty blacklist and showjoins off. -/
def pNoJoins : RenderPrefs := { blacklistedTypes := some [], showjoins := false }

/-- Render preferences where the blacklist key was never set. -/
def pUnsetBl : RenderPrefs := { blacklistedTypes := none, showjoins := true }

/-- A plain chat event with a timestamp. -/
def mChatW : Message :=
  { type := "chat", senderName := some " Bob ", sender := none, body := some "hello",
    room := some { id := "lobby" }, time := some 3700, raw := "|c|Bob|hello", thisId := "me" }

/-- A chat event whose body embeds one raw segment after the delimiter. -/
def mChatEmbedW : Message :=
  { type := "chat", senderName := some "Bob", sender := none,
    body := some "answer|raw|<b>hi</b>", room := some { id := "lobby" },
    time := none, raw := "r", thisId := "me" }

/-- A chat event whose sender name contains the body, so the replace-based
line rewrite also rewrites the sender segment. -/
def mChatEmbedCex : Message :=
  { type := "chat", senderName := some "x|raw|yo", sender := none, body := some "|raw|yo",
    room := some { id := "lobby" }, time := none, raw := "r", thisId := "me" }

/-- A join event. -/
def mJoinW : Message :=
  { type := "join", senderName := some "bob", sender := none, body := none,
    room := some { id := "lobby" }, time := none, raw := "|j|bob", thisId := "me" }

/-- A pm event from another user. -/
def mPmW : Message :=
  { type := "pm", senderName := some "alice", sender := some { id := "alice" },
    body := some "hi", room := none, time := none, raw := "|pm|alice|me|hi", thisId := "me" }

/-- A pm event the local user sent to themselves. -/
def mPmSelfW : Message :=
  { type := "pm", senderName := some "me", sender := some { id := "me" },
    body := some "hi", room := none, time := none, raw := "|pm|me|me|hi", thisId := "me" }

/-- A raw event whose raw line has no pipe separators at all. -/
def mRawShort : Message :=
  { type := "raw", senderName := none, sender := none, body := none,
    room := none, time := none, raw := "x", thisId := "me" }

/-- A plugin resolution collaborator knowing the sample plugin (the commands
of `plugins/sample_plugin.py`) and an adversarial plugin that contributes a
command named like the built-in room command. -/
def sampleResolve : String → Except ResolveError (List (String × String)) :=
  fun n =>
    if n = "sample" then .ok [("dadjoke", "dadJoke"), ("alias", "dadJoke")]
    else if n = "evil" then .ok [("room", "evilRoom")]
    else .error .moduleNotFound

/-- The interface state right after construction: built-ins only. -/
def stB0 : IState String :=
  { commands := builtinCmds, loadedPlugins := [], pluginsPref := none }

/-- The state after loading the sample plugin. -/
def stS1 : IState String := (loadPlugin sampleResolve stB0 "sample").1

/-! ## Theorems -/

/-- C10: whenever the blacklist preference was never set (the store returns
none), the membership test at the top of `handleMessage` raises a type error
for every event, before any rendering or fallback output. -/
theorem C10_blacklist_unset_raises (m : Message) (p : RenderPrefs)
    (h : p.blacklistedTypes = none) :
    handleMessage m p = .error .typeError := by
  simp [handleMessage, h]

/-- Witness for C10 at a concrete event and the unset-blacklist preference
state. -/
theorem C10_witness : handleMessage mJoinW pUnsetBl = .error .typeError :=
  C10_blacklist_unset_raises mJoinW pUnsetBl rfl

/-- C7: loading a plugin whose (normalised) identifier is already tracked
fails with the already-loaded error and returns the state unchanged: same
command registry, same loaded set, same persisted plugin list. -/
theorem C7_load_already_loaded {H : Type}
    (resolve : String → Except ResolveError (List (String × H)))
    (st : IState H) (plugin : String)
    (hmem : pyNorm plugin ∈ st.loadedPlugins) (hne : pyNorm plugin ≠ "") :
    loadPlugin resolve st plugin = (st, .alreadyLoaded) := by
  simp [loadPlugin, hne, hmem]

/-- Witness for C7: loading the sample plugin twice; the second call reports
already-loaded and leaves the state of the first load intact. -/
theorem C7_witness : loadPlugin sampleResolve stS1 "sample" = (stS1, .alreadyLoaded) :=
  C7_load_already_loaded sampleResolve stS1 "sample" (by decide) (by decide)

/-- C9 counterexample: from a preference file that exists but is empty (the
very state a prior `getPref` on a missing file leaves behind via `touch`),
`setPref` raises a JSON decode error, so the set-then-get round trip does not
return the stored value. -/
theorem C9_counterexample :
    roundTrip "k" (PValue.str "v") (FileState.present FileContent.empty) ≠
      some (PValue.str "v") := by
  intro h
  exact Option.noConfusion h

/-- C9 amended: the set-then-get round trip returns the stored value for
every key and JSON-representable value whenever the preferences file is
absent or holds a well-formed JSON object beforehand (a present-but-empty
file instead makes `setPref` raise). -/
theorem C9_roundtrip (k : String) (v : PValue) (st : FileState)
    (h : st = .absent ∨ ∃ d, st = .present (.obj d)) :
    roundTrip k v st = some v := by
  rcases h with h | ⟨d, h⟩ <;> subst h <;>
    simp [roundTrip, setPref, getPref, loadJSON]

/-- Witness for C9 at a concrete key, integer value and absent file. -/
theorem C9_witness : roundTrip "k" (PValue.int 5) FileState.absent = some (PValue.int 5) :=
  C9_roundtrip "k" (PValue.int 5) FileState.absent (Or.inl rfl)

/-- C1 counterexample: an empty popped line does not start with the command
character, yet the dispatch loop skips it at the falsy-line guard (the
`continue` before the prefix check) and never calls send, while the claim
predicts a send of the room context, a pipe and the (empty) line. -/
theorem C1_counterexample :
    dispatchLine "%" "lobby" ["room", "eval", "load"] "" = .skip ∧
    DispatchAction.skip ≠ .send ("lobby" ++ "|" ++ "") := by
  exact ⟨by decide, by decide⟩

/-- C1 amended: a falsy (empty) popped line is skipped entirely, with no
send, no registry lookup and no handler invocation; for every non-empty
popped line, if its leading slice equals the configured command character
the dispatcher never sends, strips the character, lowercases the first
space-delimited token, and either invokes the registered handler with the
remainder (empty when there is no space) or reports an unknown command;
otherwise it sends the whole line prefixed with the current room context and
a pipe, never touching the registry. -/
theorem C1_dispatch (cc room : String) (reg : List String) (line : String) :
    (line = "" → dispatchLine cc room reg line = .skip) ∧
    (line ≠ "" → cTake line cc.length ≠ cc →
      dispatchLine cc room reg line = .send (room ++ "|" ++ line)) ∧
    (line ≠ "" → cTake line cc.length = cc →
      (∀ s, dispatchLine cc room reg line ≠ .send s) ∧
      (lowerStr (firstTok (cDrop line cc.length)) ∈ reg →
        dispatchLine cc room reg line =
          .invoke (lowerStr (firstTok (cDrop line cc.length)))
            (restTok (cDrop line cc.length))) ∧
      (lowerStr (firstTok (cDrop line cc.length)) ∉ reg →
        dispatchLine cc room reg line =
          .unknown ("Unknown command " ++ sq ++ cc ++ firstTok (cDrop line cc.length) ++ sq))) := by
  refine ⟨?_, ?_, ?_⟩
  · intro hline
    simp [dispatchLine, hline]
  · intro hline h
    simp [dispatchLine, hline, h]
  · intro hline h
    refine ⟨?_, ?_, ?_⟩
    · intro s
      simp only [dispatchLine, if_neg hline, if_pos h]
      split
      · intro hcon
        exact DispatchAction.noConfusion hcon
      · intro hcon
        exact DispatchAction.noConfusion hcon
    · intro hm
      simp [dispatchLine, hline, h, hm]
    · intro hm
      simp [dispatchLine, hline, h, hm]

/-- Witness for C1 amended: with command character percent, the room command
line is dispatched to the room handler with its argument and nothing is
sent, an unprefixed line is sent to the connection as the room context, a
pipe and the line, and the empty line is skipped. -/
theorem C1_witness :
    dispatchLine "%" "lobby" ["room", "eval", "load"] "%room lobby" =
      .invoke "room" "lobby" ∧
    dispatchLine "%" "lobby" ["room", "eval", "load"] "hello there" =
      .send "lobby|hello there" ∧
    dispatchLine "%" "lobby" ["room", "eval", "load"] "" = .skip := by
  refine ⟨?_, ?_, ?_⟩
  · have h := ((C1_dispatch "%" "lobby" ["room", "eval", "load"] "%room lobby").2.2
      (by decide) (by decide)).2.1 (by decide)
    exact h
  · have h := (C1_dispatch "%" "lobby" ["room", "eval", "load"] "hello there").2.1
      (by decide) (by decide)
    exact h
  · exact (C1_dispatch "%" "lobby" ["room", "eval", "load"] "").1 rfl

/-- C2: a chat event with truthy sender name, body and room, a kind that is
not blacklisted, and no embedded raw delimiter in the body yields exactly one
display unit: the room identifier in parentheses, the optional bracketed
time-of-day of the UTC timestamp, the whitespace-trimmed sender name, a colon
and the body. -/
theorem C2_chat_render (m : Message) (p : RenderPrefs) (bl : List String)
    (s b : String) (r : Room)
    (hbl : p.blacklistedTypes = some bl) (hnbl : m.type ∉ bl)
    (hty : m.type = "chat") (hs : m.senderName = some s) (hs1 : s ≠ "")
    (hb : m.body = some b) (hb1 : b ≠ "") (hr : m.room = some r)
    (hnr : pyContains b "|raw|" = false) :
    handleMessage m p =
      .ok [Output.text ("(" ++ r.id ++ ") " ++ chatTimeStr m.time ++
        pyStrip s ++ ": " ++ b)] := by
  rw [hty] at hnbl
  simp [handleMessage, hbl, hnbl, chatCond, hty, hs, hb, hr, truthyOptStr,
    chatOutputs, hnr, chatLine, roomIdOf, getStr, hs1, hb1]

/-- Witness for C2 at a concrete chat event with timestamp 3700. -/
theorem C2_witness :
    handleMessage mChatW pEmptyBl = .ok [Output.text "(lobby) [01:01:40] Bob: hello"] := by
  have h := C2_chat_render mChatW pEmptyBl [] " Bob " "hello" { id := "lobby" }
    rfl (by decide) rfl rfl (by decide) rfl (by decide) rfl (by decide)
  exact h

/-- C3 counterexample: when the sender name itself contains the body, the
replace-based rewrite of the chat line also erases the occurrence inside the
sender segment, so the first display unit is not the chat line with only the
pre-delimiter portion of the body: the code prints a mangled sender while the
claim predicts the sender intact. -/
theorem C3_counterexample :
    handleMessage mChatEmbedCex pEmptyBl =
      .ok [Output.text "(lobby) x: ", Output.html "yo"] ∧
    "(lobby) x: " ≠ "(lobby) x|raw|yo: " := by
  exact ⟨by decide, by decide⟩

/-- C3 amended: a chat event (all required fields truthy, kind not
blacklisted) whose body contains the raw delimiter emits the chat line with
every occurrence of the body text replaced by the portion before the first
delimiter (which is the claimed pre-delimiter line whenever the body occurs
nowhere else in the line), followed by one additional display unit per
delimited segment, each passed through the embedded-markup formatter. -/
theorem C3_chat_embedded (m : Message) (p : RenderPrefs) (bl : List String)
    (s b : String) (r : Room)
    (hbl : p.blacklistedTypes = some bl) (hnbl : m.type ∉ bl)
    (hty : m.type = "chat") (hs : m.senderName = some s) (hs1 : s ≠ "")
    (hb : m.body = some b) (hb1 : b ≠ "") (hr : m.room = some r)
    (hraw : pyContains b "|raw|" = true) :
    handleMessage m p =
      .ok (Output.text (pyReplace ("(" ++ r.id ++ ") " ++ chatTimeStr m.time ++
          pyStrip s ++ ": " ++ b) b ((pySplitOn b "|raw|").headD "")) ::
        (pySplitOn b "|raw|").tail.map (fun item => Output.html (formatHTML item))) := by
  rw [hty] at hnbl
  simp [handleMessage, hbl, hnbl, chatCond, hty, hs, hb, hr, truthyOptStr,
    chatOutputs, hraw, chatLine, roomIdOf, getStr, hs1, hb1]

/-- Witness for C3 amended: the spec example body yields exactly two display
units, the pre-delimiter chat line and the formatted raw segment. -/
theorem C3_witness :
    handleMessage mChatEmbedW pEmptyBl =
      .ok [Output.text "(lobby) Bob: answer", Output.html "<b>hi</b>"] := by
  have h := C3_chat_embedded mChatEmbedW pEmptyBl [] "Bob" "answer|raw|<b>hi</b>"
    { id := "lobby" } rfl (by decide) rfl rfl (by decide) rfl (by decide) rfl (by decide)
  exact h

/-- C4 counterexample: a join event with the showjoins preference off still
produces output, namely the verbatim raw fallback line, not no output at
all. -/
theorem C4_counterexample :
    handleMessage mJoinW pNoJoins = .ok [Output.text "|j|bob"] ∧
    (Except.ok [Output.text "|j|bob"] : Except RenderError (List Output)) ≠ .ok [] := by
  exact ⟨by decide, by decide⟩

/-- C4 amended: for a join or leave event with room and truthy sender name
and a non-blacklisted kind, a truthy showjoins preference yields the joined
or left line, while a falsy one falls back to emitting the verbatim raw
line (rather than producing no output). -/
theorem C4_join_leave (m : Message) (p : RenderPrefs) (bl : List String)
    (s : String) (r : Room)
    (hbl : p.blacklistedTypes = some bl) (hnbl : m.type ∉ bl)
    (hty : m.type = "join" ∨ m.type = "leave")
    (hr : m.room = some r) (hs : m.senderName = some s) (hs1 : s ≠ "") :
    handleMessage m p =
      .ok [Output.text (if p.showjoins then
          pyStrip s ++ (if m.type = "join" then " joined " else " left ") ++ r.id
        else m.raw)] := by
  cases hsj : p.showjoins <;> rcases hty with hty | hty <;> rw [hty] at hnbl <;>
    simp [handleMessage, hbl, hnbl, chatCond, hty, hs, hr, truthyOptStr,
      roomIdOf, getStr, hs1, hsj, rawGuard, joinFormatted, pmFormatted]

/-- Witness for C4 amended: both preference polarities at a concrete join
event. -/
theorem C4_witness :
    handleMessage mJoinW pEmptyBl = .ok [Output.text "bob joined lobby"] ∧
    handleMessage mJoinW pNoJoins = .ok [Output.text "|j|bob"] := by
  constructor
  · have h := C4_join_leave mJoinW pEmptyBl [] "bob" { id := "lobby" }
      rfl (by decide) (Or.inl rfl) rfl rfl (by decide)
    exact h
  · have h := C4_join_leave mJoinW pNoJoins [] "bob" { id := "lobby" }
      rfl (by decide) (Or.inl rfl) rfl rfl (by decide)
    exact h

/-- C6: for a pm event with truthy sender name, a present sender object and a
non-blacklisted kind, a sender whose identifier differs from the local user
yields the PM-from line with the trimmed sender and the body, while a sender
that is the local user falls through to the verbatim raw fallback line. -/
theorem C6_pm_render (m : Message) (p : RenderPrefs) (bl : List String)
    (s : String) (u : UserRef)
    (hbl : p.blacklistedTypes = some bl) (hnbl : m.type ∉ bl)
    (hty : m.type = "pm") (hs : m.senderName = some s) (hs1 : s ≠ "")
    (hu : m.sender = some u) :
    (u.id ≠ m.thisId →
      handleMessage m p =
        .ok [Output.text ("(PM from " ++ pyStrip s ++ ") " ++ pyShow m.body)]) ∧
    (u.id = m.thisId → handleMessage m p = .ok [Output.text m.raw]) := by
  rw [hty] at hnbl
  constructor <;> intro h <;>
    simp [handleMessage, hbl, hnbl, chatCond, hty, hs, hu, truthyOptStr,
      getStr, hs1, h, rawGuard, joinFormatted, pmFormatted]

/-- Witness for C6: a pm from another user and a self-sent pm at concrete
events. -/
theorem C6_witness :
    handleMessage mPmW pEmptyBl = .ok [Output.text "(PM from alice) hi"] ∧
    handleMessage mPmSelfW pEmptyBl = .ok [Output.text "|pm|me|me|hi"] := by
  constructor
  · have h := (C6_pm_render mPmW pEmptyBl [] "alice" { id := "alice" }
      rfl (by decide) rfl rfl (by decide) rfl).1 (by decide)
    exact h
  · have h := (C6_pm_render mPmSelfW pEmptyBl [] "me" { id := "me" }
      rfl (by decide) rfl rfl (by decide) rfl).2 rfl
    exact h

/-- C5 counterexample: `handleMessage` does raise on a raw event whose raw
line has no pipe separators — the indexing after the pipe split is out of
range instead of degrading to the verbatim raw fallback. -/
theorem C5_counterexample :
    handleMessage mRawShort pEmptyBl = .error .indexError ∧
    (Except.error RenderError.indexError : Except RenderError (List Output)) ≠ .ok [Output.text "x"] := by
  exact ⟨by decide, by decide⟩

/-- C5 amended: with the blacklist preference set, the renderer is total
except in one place: any exception it raises is the index error of the
raw/html/uhtml branch, which occurs only when the raw line is non-empty and
splits into at most 2 fields (raw/html) or 3 fields (uhtml); every other
event degrades to some output rather than failing. -/
theorem C5_total_except_rawsplit (m : Message) (p : RenderPrefs) (bl : List String)
    (hbl : p.blacklistedTypes = some bl) (e : RenderError)
    (he : handleMessage m p = .error e) :
    e = .indexError ∧ (m.type = "raw" ∨ m.type = "html" ∨ m.type = "uhtml") ∧
      m.raw ≠ "" ∧ (pySplitCh m.raw '|' (rawIndex m)).length ≤ rawIndex m := by
  simp only [handleMessage, hbl] at he
  by_cases h1 : m.type ∈ bl
  · rw [if_pos h1] at he
    exact absurd he (by simp)
  rw [if_neg h1] at he
  by_cases h2 : chatCond m = true
  · rw [if_pos h2] at he
    exact absurd he (by simp)
  rw [if_neg h2] at he
  by_cases h3 : rawGuard m = true
  · rw [if_pos h3] at he
    rw [rawBranch] at he
    rcases hget : (pySplitCh m.raw '|' (rawIndex m)).get? (rawIndex m) with _ | payload
    · rw [hget] at he
      simp only [Except.error.injEq] at he
      have h3' := h3
      simp only [rawGuard, Bool.and_eq_true, Bool.or_eq_true, beq_iff_eq,
        bne_iff_ne] at h3'
      exact ⟨he.symm, (or_assoc.mp h3'.1), h3'.2, List.get?_eq_none.mp hget⟩
    · rw [hget] at he
      exact absurd he (by simp)
  · rw [if_neg h3] at he
    exact absurd he (by simp)

/-- Witness for C5 amended at the concrete failing raw event. -/
theorem C5_witness :
    RenderError.indexError = RenderError.indexError ∧
    (mRawShort.type = "raw" ∨ mRawShort.type = "html" ∨ mRawShort.type = "uhtml") ∧
    mRawShort.raw ≠ "" ∧
    (pySplitCh mRawShort.raw '|' (rawIndex mRawShort)).length ≤ rawIndex mRawShort :=
  C5_total_except_rawsplit mRawShort pEmptyBl [] rfl RenderError.indexError (by decide)

/-- Deleting a key removes it from the dict. -/
theorem dictHas_dictDelete_self {H : Type} (d : List (String × H)) (k : String) :
    dictHas (dictDelete d k) k = false := by
  induction d with
  | nil => rfl
  | cons kv rest ih =>
    by_cases hk : kv.1 = k <;> simp [dictDelete, dictHas, hk, ih]

/-- Deleting one key does not change membership of a different key. -/
theorem dictHas_dictDelete_other {H : Type} (d : List (String × H)) (k j : String)
    (h : k ≠ j) : dictHas (dictDelete d j) k = dictHas d k := by
  have hjk : j ≠ k := Ne.symm h
  induction d with
  | nil => rfl
  | cons kv rest ih =>
    by_cases hj : kv.1 = j
    · simp [dictDelete, dictHas, hj, ih, hjk]
    · simp [dictDelete, dictHas, hj, ih]

/-- A key absent from the dict stays absent through a fold of deletions. -/
theorem dictHas_foldl_delete_absent {H : Type} (cmds : List (String × H))
    (d : List (String × H)) (k : String) (h : dictHas d k = false) :
    dictHas (cmds.foldl (fun acc kv => dictDelete acc kv.1) d) k = false := by
  induction cmds generalizing d with
  | nil => exact h
  | cons kv rest ih =>
    simp only [List.foldl_cons]
    apply ih
    by_cases hk : k = kv.1
    · rw [hk]
      exact dictHas_dictDelete_self d kv.1
    · rw [dictHas_dictDelete_other d k kv.1 hk]
      exact h

/-- Every key among the deleted ones is absent after the fold of deletions. -/
theorem dictHas_foldl_delete_mem {H : Type} (cmds : List (String × H))
    (d : List (String × H)) (k : String)
    (h : k ∈ cmds.map (fun kv => kv.1)) :
    dictHas (cmds.foldl (fun acc kv => dictDelete acc kv.1) d) k = false := by
  induction cmds generalizing d with
  | nil => simp at h
  | cons kv rest ih =>
    simp only [List.foldl_cons]
    by_cases hk : k = kv.1
    · apply dictHas_foldl_delete_absent
      rw [hk]
      exact dictHas_dictDelete_self d kv.1
    · apply ih
      simp only [List.map_cons, List.mem_cons] at h
      rcases h with h | h
      · exact absurd h hk
      · exact h

/-- A key present in the dict and not among the deleted ones is still present
after the fold of deletions. -/
theorem dictHas_foldl_delete_not_mem {H : Type} (cmds : List (String × H))
    (d : List (String × H)) (k : String)
    (hmem : dictHas d k = true) (h : k ∉ cmds.map (fun kv => kv.1)) :
    dictHas (cmds.foldl (fun acc kv => dictDelete acc kv.1) d) k = true := by
  induction cmds generalizing d with
  | nil => exact hmem
  | cons kv rest ih =>
    simp only [List.map_cons, List.mem_cons, not_or] at h
    simp only [List.foldl_cons]
    apply ih _ _ h.2
    rw [dictHas_dictDelete_other d k kv.1 h.1]
    exact hmem

/-- The components of the state returned by a successful unload. -/
theorem unloadPlugin_ok_state {H : Type}
    (resolve : String → Except ResolveError (List (String × H)))
    (st : IState H) (plugin : String) (cmds : List (String × H))
    (hne : pyNorm plugin ≠ "") (hmem : pyNorm plugin ∈ st.loadedPlugins)
    (hres : resolve (pyNorm plugin) = .ok cmds) :
    (unloadPlugin resolve st plugin).1.commands =
        cmds.foldl (fun acc kv => dictDelete acc kv.1) st.commands ∧
      (unloadPlugin resolve st plugin).1.loadedPlugins =
        st.loadedPlugins.erase (pyNorm plugin) ∧
      (unloadPlugin resolve st plugin).2 = .unloaded := by
  simp only [unloadPlugin, hne, if_false, hmem, not_true, hres, ite_false]
  split <;> simp [hmem]

/-- C8 counterexample: a plugin contributing a command named like the
built-in room command loads successfully (shadowing the built-in) and its
unload then deletes the room command from the registry entirely — a built-in
removed by unload. -/
theorem C8_counterexample :
    (loadPlugin sampleResolve stB0 "evil").2 = .loaded ∧
    (unloadPlugin sampleResolve (loadPlugin sampleResolve stB0 "evil").1 "evil").2 =
      .unloaded ∧
    "room" ∈ builtinNames ∧
    dictHas (unloadPlugin sampleResolve (loadPlugin sampleResolve stB0 "evil").1
      "evil").1.commands "room" = false := by
  exact ⟨by decide, by decide, by decide, by decide⟩

/-- C8 amended: unloading a successfully loaded plugin removes from the
registry every command name the resolution of that plugin contributes and
drops its identifier from the loaded set; a command present beforehand (in
particular a built-in) survives exactly when the plugin did not contribute
its name — a plugin that contributes a built-in name causes unload to delete
that built-in. -/
theorem C8_unload_removes_contributed {H : Type}
    (resolve : String → Except ResolveError (List (String × H)))
    (st : IState H) (plugin : String) (cmds : List (String × H))
    (hne : pyNorm plugin ≠ "") (hmem : pyNorm plugin ∈ st.loadedPlugins)
    (hres : resolve (pyNorm plugin) = .ok cmds)
    (hnd : st.loadedPlugins.Nodup) :
    (∀ k, k ∈ cmds.map (fun kv => kv.1) →
      dictHas (unloadPlugin resolve st plugin).1.commands k = false) ∧
    pyNorm plugin ∉ (unloadPlugin resolve st plugin).1.loadedPlugins ∧
    (∀ k, dictHas st.commands k = true → k ∉ cmds.map (fun kv => kv.1) →
      dictHas (unloadPlugin resolve st plugin).1.commands k = true) := by
  obtain ⟨hc, hl, _⟩ := unloadPlugin_ok_state resolve st plugin cmds hne hmem hres
  refine ⟨?_, ?_, ?_⟩
  · intro k hk
    rw [hc]
    exact dictHas_foldl_delete_mem cmds st.commands k hk
  · rw [hl]
    exact hnd.not_mem_erase
  · intro k hkmem hknot
    rw [hc]
    exact dictHas_foldl_delete_not_mem cmds st.commands k hkmem hknot

/-- Witness for C8 amended: unloading the sample plugin removes both names it
contributed, drops it from the loaded set, and keeps the built-in room and
eval commands. -/
theorem C8_witness :
    dictHas (unloadPlugin sampleResolve stS1 "sample").1.commands "dadjoke" = false ∧
    dictHas (unloadPlugin sampleResolve stS1 "sample").1.commands "alias" = false ∧
    "sample" ∉ (unloadPlugin sampleResolve stS1 "sample").1.loadedPlugins ∧
    dictHas (unloadPlugin sampleResolve stS1 "sample").1.commands "room" = true ∧
    dictHas (unloadPlugin sampleResolve stS1 "sample").1.commands "eval" = true := by
  have h := C8_unload_removes_contributed sampleResolve stS1 "sample"
    [("dadjoke", "dadJoke"), ("alias", "dadJoke")] (by decide) (by decide) rfl (by decide)
  exact ⟨h.1 "dadjoke" (by decide), h.1 "alias" (by decide), h.2.1,
    h.2.2 "room" (by decide) (by decide), h.2.2 "eval" (by decide) (by decide)⟩

end Poketext
